import Mathlib

set_option maxRecDepth 4096

/-!
Shallow embedding of the carbon-credit burner firmware
(`src/burner/src/main.cpp`, with the Wokwi variant
`src/iot/burner/carbon-credit-burner.ino`).

Machine integers (`int`, `unsigned long`) are modelled as `Int`/`Nat`:
the quantities involved (sensor readings 800..3000, sample counts <= 15,
millisecond timestamps) never approach the 32-bit range in the scenarios
considered, and `millis()` timestamps are used monotonically. C `float`
arithmetic is modelled exactly over `Rat`; the constants in play
(0.001, 0.01, 0.8, 5.0, 10.0, 100.0) and the claim scenarios involve no
rounding-sensitive computation. Serial logging, the OLED display, Wi-Fi
and the JSON string formatting are I/O glue (out of scope per the spec)
and are not modelled; the outcome of an MQTT `publish` call is passed in
as a `Bool` parameter.
-/

/-- Aggregation state of `main.cpp`: the two 15-entry ring buffers
(`int co2Readings[15]; int humidityReadings[15];`, globals, hence
zero-initialised), the write index `readingIndex` and the valid-entry
counter `readingsCount` (lines 43-46). Buffers are length-15 lists. -/
structure AggState where
  co2Readings : List Int
  humidityReadings : List Int
  readingIndex : Nat
  readingsCount : Nat
deriving Repr, DecidableEq

/-- The global initial state: zeroed buffers, index 0, count 0. -/
def initialAggState : AggState :=
  { co2Readings := List.replicate 15 0
    humidityReadings := List.replicate 15 0
    readingIndex := 0
    readingsCount := 0 }

/-- The buffer-store step of `generateHighGasEmissionData`
(main.cpp lines 301-305):
`co2Readings[readingIndex] = co2Reading; humidityReadings[readingIndex] =
humidityReading; readingIndex = (readingIndex + 1) % 15;
if (readingsCount < 15) readingsCount++;` -/
def storeReading (co2 hum : Int) (s : AggState) : AggState :=
  { co2Readings := s.co2Readings.set s.readingIndex co2
    humidityReadings := s.humidityReadings.set s.readingIndex hum
    readingIndex := (s.readingIndex + 1) % 15
    readingsCount := if s.readingsCount < 15 then s.readingsCount + 1 else s.readingsCount }

/-- The exact CO2 entries the aggregation loop of
`publishAggregatedDataToMqtt` reads (main.cpp lines 147-154): buffer
positions `0 .. readingsCount-1`, by array position. -/
def aggregateEntriesCO2 (s : AggState) : List Int :=
  s.co2Readings.take s.readingsCount

/-- The exact humidity entries the aggregation loop reads. -/
def aggregateEntriesHum (s : AggState) : List Int :=
  s.humidityReadings.take s.readingsCount

/-- The aggregate statistics of the MQTT payload built by
`publishAggregatedDataToMqtt` (main.cpp lines 142-169). The
ip/mac/credits/emissions/offset/timestamp payload fields are formatting
glue and omitted. -/
structure AggregateReport where
  avg_c : Rat
  max_c : Int
  min_c : Int
  avg_h : Rat
  max_h : Int
  min_h : Int
  samples : Nat
deriving Repr, DecidableEq

/-- The statistics loop of `publishAggregatedDataToMqtt`
(main.cpp lines 142-157): sums and min/max accumulated over buffer
positions `0 .. readingsCount-1`, with `maxCO2`/`maxHumidity` starting at
0 and `minCO2`/`minHumidity` starting at 9999, then the sums divided by
`readingsCount`. -/
def summarize (s : AggState) : AggregateReport :=
  { avg_c := ((aggregateEntriesCO2 s).foldl (· + ·) 0 : Int) / (s.readingsCount : Rat)
    max_c := (aggregateEntriesCO2 s).foldl max 0
    min_c := (aggregateEntriesCO2 s).foldl min 9999
    avg_h := ((aggregateEntriesHum s).foldl (· + ·) 0 : Int) / (s.readingsCount : Rat)
    max_h := (aggregateEntriesHum s).foldl max 0
    min_h := (aggregateEntriesHum s).foldl min 9999
    samples := s.readingsCount }

/-- `publishAggregatedDataToMqtt` (main.cpp lines 128-192).
`clientConnected` models `mqttClient.connected()`, `mqttConn` the
`mqttConnected` flag, `pubOk` the result of `mqttClient.publish`. Returns
the new state and the successfully dispatched report, if any.
Control flow: if not connected, return (state untouched); if
`readingsCount == 0`, return; otherwise build the report and publish;
on success `readingsCount = 0`, on failure nothing changes. The
payload-truncation early return (lines 172-175) is string-formatting
glue; like a failed publish it leaves the state untouched and dispatches
nothing, so it is subsumed by `pubOk = false`. -/
def publishAggregatedDataToMqtt (clientConnected mqttConn pubOk : Bool) (s : AggState) :
    AggState × Option AggregateReport :=
  if !(clientConnected && mqttConn) then (s, none)
  else if s.readingsCount == 0 then (s, none)
  else if pubOk then ({ s with readingsCount := 0 }, some (summarize s))
  else (s, none)

/-- Credit-ledger state of `main.cpp`: the sensor reading `co2Reading`
(line 24) and the credit globals `availableCredits`, `creditsBurned`,
`autoPurchaseEnabled` (lines 64-66). Floats are modelled exactly as
rationals. -/
structure BurnerLedger where
  co2Reading : Int
  availableCredits : Rat
  creditsBurned : Rat
  autoPurchaseEnabled : Bool
deriving Repr, DecidableEq

/-- `const float CREDIT_PURCHASE_THRESHOLD = 10.0` (main.cpp line 67). -/
def CREDIT_PURCHASE_THRESHOLD : Rat := 10

/-- `const float CREDIT_PURCHASE_AMOUNT = 100.0` (main.cpp line 68). -/
def CREDIT_PURCHASE_AMOUNT : Rat := 100

/-- `autoPurchaseCredits` (main.cpp lines 365-373):
`if (autoPurchaseEnabled && availableCredits < CREDIT_PURCHASE_THRESHOLD)
{ availableCredits += CREDIT_PURCHASE_AMOUNT; }`. The source returns
`void`; the `Bool` of the result records whether the purchase branch ran
(observable as the state change and the purchase log line). -/
def autoPurchaseCredits (s : BurnerLedger) : BurnerLedger × Bool :=
  if s.autoPurchaseEnabled ∧ s.availableCredits < CREDIT_PURCHASE_THRESHOLD then
    ({ s with availableCredits := s.availableCredits + CREDIT_PURCHASE_AMOUNT }, true)
  else (s, false)

/-- `burnCreditsForOffset` (main.cpp lines 378-395):
```
if (co2Reading > 1000 && availableCredits > 0) {
  float creditsToBurn = (co2Reading - 1000) * 0.001;
  if (creditsToBurn > availableCredits) creditsToBurn = availableCredits;
  if (creditsToBurn > 0.01) {
    availableCredits -= creditsToBurn;
    creditsBurned += creditsToBurn;
  }
}
```
-/
def burnCreditsForOffset (s : BurnerLedger) : BurnerLedger :=
  if 1000 < s.co2Reading ∧ 0 < s.availableCredits then
    let creditsToBurn : Rat := ((s.co2Reading : Rat) - 1000) * (mkRat 1 1000)
    let creditsToBurn :=
      if s.availableCredits < creditsToBurn then s.availableCredits else creditsToBurn
    if mkRat 1 100 < creditsToBurn then
      { s with availableCredits := s.availableCredits - creditsToBurn
               creditsBurned := s.creditsBurned + creditsToBurn }
    else s
  else s

/-- Credit state of the Wokwi variant
(`src/iot/burner/carbon-credit-burner.ino` lines 40-52): `co2Emission`,
`isActive`, `availableCredits`, `currentSessionCreditsBurned`,
`totalCreditsBurned`. -/
structure InoLedger where
  co2Emission : Rat
  isActive : Bool
  availableCredits : Rat
  currentSessionCreditsBurned : Rat
  totalCreditsBurned : Rat
deriving Repr, DecidableEq

/-- `const float CREDIT_BURN_RATE = 0.001` (.ino line 31). -/
def CREDIT_BURN_RATE : Rat := mkRat 1 1000

/-- `burnCarbonCredits` (.ino lines 262-295):
```
if (isActive && co2Emission > 0 && availableCredits > 0) {
  float creditsToBurn = co2Emission * CREDIT_BURN_RATE;
  if (creditsToBurn > availableCredits) creditsToBurn = availableCredits;
  if (creditsToBurn > 0.01) {
    availableCredits -= creditsToBurn;
    currentSessionCreditsBurned += creditsToBurn;
    totalCreditsBurned += creditsToBurn;
  }
}
```
The trailing `sendCreditBurnDataToBackend` call is HTTP glue and not
modelled. -/
def burnCarbonCredits (s : InoLedger) : InoLedger :=
  if s.isActive ∧ 0 < s.co2Emission ∧ 0 < s.availableCredits then
    let creditsToBurn := s.co2Emission * CREDIT_BURN_RATE
    let creditsToBurn :=
      if s.availableCredits < creditsToBurn then s.availableCredits else creditsToBurn
    if mkRat 1 100 < creditsToBurn then
      { s with availableCredits := s.availableCredits - creditsToBurn
               currentSessionCreditsBurned := s.currentSessionCreditsBurned + creditsToBurn
               totalCreditsBurned := s.totalCreditsBurned + creditsToBurn }
    else s
  else s

/-- `addCredits` (.ino lines 376-379): `availableCredits += credits;`
with no validation of the amount. -/
def addCredits (credits : Rat) (s : InoLedger) : InoLedger :=
  { s with availableCredits := s.availableCredits + credits }

/-- The `.ino` initial credit state: `availableCredits = 100.0`,
burn counters 0 (lines 48-50); `co2Emission = 0.0`, `isActive = false`
(lines 40, 51). -/
def inoInitialLedger : InoLedger :=
  { co2Emission := 0
    isActive := false
    availableCredits := 100
    currentSessionCreditsBurned := 0
    totalCreditsBurned := 0 }

/-- The two alert classifications of `loop` (main.cpp lines 499-504):
`HIGH_CO2` and `LOW_CREDITS`. -/
inductive AlertKind where
  | CriticalHighReading
  | LowCredits
deriving Repr, DecidableEq

/-- `const int CRITICAL_CO2_THRESHOLD = 2500` (main.cpp line 49). -/
def CRITICAL_CO2_THRESHOLD : Int := 2500

/-- `const float CRITICAL_CREDITS_THRESHOLD = 5.0` (main.cpp line 50). -/
def CRITICAL_CREDITS_THRESHOLD : Rat := 5

/-- `const unsigned long criticalAlertCooldown = 30000` (main.cpp line 40). -/
def criticalAlertCooldown : Nat := 30000

/-- The alert classification inside `loop` (main.cpp lines 499-505):
`if (co2Reading > CRITICAL_CO2_THRESHOLD) ... HIGH_CO2 ...
else if (availableCredits < CRITICAL_CREDITS_THRESHOLD) ... LOW_CREDITS`. -/
def evaluateAlert (co2 : Int) (credits : Rat) : Option AlertKind :=
  if CRITICAL_CO2_THRESHOLD < co2 then some AlertKind.CriticalHighReading
  else if credits < CRITICAL_CREDITS_THRESHOLD then some AlertKind.LowCredits
  else none

/-- `sendCriticalAlert` (main.cpp lines 197-238): if
`!mqttClient.connected()` it returns without publishing; otherwise the
alert is published, with a fallback publish to a simpler topic when the
first publish fails (lines 226-231). `pubOk`/`fallbackOk` are the
transport outcomes of the two publish calls; the result is the delivered
alert, if any. The payload formatting is glue and not modelled. -/
def sendCriticalAlert (connected pubOk fallbackOk : Bool) (k : AlertKind) : Option AlertKind :=
  if connected then (if pubOk || fallbackOk then some k else none) else none

/-- The alert timer state: `unsigned long lastCriticalAlert = 0`
(main.cpp line 39) — a single timer shared by both alert kinds. -/
structure AlertState where
  lastCriticalAlert : Nat
deriving Repr, DecidableEq

/-- The critical-alert block of `loop` (main.cpp lines 497-506):
```
if (currentTime - lastCriticalAlert >= criticalAlertCooldown) {
  if (co2Reading > CRITICAL_CO2_THRESHOLD) {
    sendCriticalAlert("HIGH_CO2", ...); lastCriticalAlert = currentTime;
  } else if (availableCredits < CRITICAL_CREDITS_THRESHOLD) {
    sendCriticalAlert("LOW_CREDITS", ...); lastCriticalAlert = currentTime;
  }
}
```
`now` is `currentTime` (`millis()`); `unsigned long` subtraction is
modelled by `Nat` subtraction, which agrees with the 32-bit unsigned
value whenever `lastCriticalAlert <= now`, i.e. for the monotonic
timestamps `millis()` produces. Result: new timer state, the alert kind
whose send was attempted (`lastCriticalAlert` is updated exactly when
this is `some`), and the delivered alert per `sendCriticalAlert`. -/
def alertStep (connected pubOk fallbackOk : Bool) (now : Nat) (co2 : Int) (credits : Rat)
    (s : AlertState) : AlertState × Option AlertKind × Option AlertKind :=
  if criticalAlertCooldown ≤ now - s.lastCriticalAlert then
    match evaluateAlert co2 credits with
    | some k =>
        ({ lastCriticalAlert := now }, some k, sendCriticalAlert connected pubOk fallbackOk k)
    | none => (s, none, none)
  else (s, none, none)

/-- Iterated alert ticks over a list of `(currentTime, co2Reading,
availableCredits)` observations, with the transport connected and
publishing successfully; returns the fired alerts with their times. -/
def runAlerts : List (Nat × Int × Rat) → AlertState → List (Nat × AlertKind)
  | [], _ => []
  | (now, co2, credits) :: rest, s =>
      match alertStep true true true now co2 credits s with
      | (s1, some k, _) => (now, k) :: runAlerts rest s1
      | (s1, none, _) => runAlerts rest s1

/-- Abstract operations on the aggregation window: a `push` is the
buffer-store step of `generateHighGasEmissionData`, a `reset` is the
`readingsCount = 0` performed by a successful aggregate publish
(main.cpp line 188) — `readingIndex` is left untouched. -/
inductive AggOp where
  | push (co2 hum : Int)
  | reset
deriving Repr, DecidableEq

/-- Apply one window operation. -/
def applyOp : AggOp → AggState → AggState
  | AggOp.push co2 hum, s => storeReading co2 hum s
  | AggOp.reset, s => { s with readingsCount := 0 }

/-- Apply a chronological list of window operations. -/
def applyOps : List AggOp → AggState → AggState
  | [], s => s
  | op :: rest, s => applyOps rest (applyOp op s)

/-- Number of pushes after the last reset in a chronological operation
list, given the count of pushes already performed since the last reset. -/
def pushesSinceReset : List AggOp → Nat → Nat
  | [], k => k
  | AggOp.push _ _ :: rest, k => pushesSinceReset rest (k + 1)
  | AggOp.reset :: rest, _ => pushesSinceReset rest 0

/-- The emission-to-credits conversion of `burnCreditsForOffset`
(main.cpp line 380): `(co2Reading - 1000) * 0.001` — the burn amount the
device requests for the current reading. -/
def requestedBurn (s : BurnerLedger) : Rat :=
  ((s.co2Reading : Rat) - 1000) * mkRat 1 1000

/-- The burn amount claimed by the spec: `min(requested, available)`
subject to the 0.01 epsilon no-op policy. Stated from the words of the spec
for comparison with `burnCreditsForOffset`. -/
def specActualBurned (s : BurnerLedger) : Rat :=
  if mkRat 1 100 < min (requestedBurn s) s.availableCredits then
    min (requestedBurn s) s.availableCredits
  else 0

/-- C1: the aggregation window is reset (readingsCount set to 0) iff the
aggregate publish succeeds. With `readingsCount = k > 0`: when the
transport is disconnected or the publish fails, the state (count and
both sample buffers) is left exactly unchanged and nothing is
dispatched; when the publish succeeds, `readingsCount` becomes 0, the
buffers and index are untouched, and the aggregate report is
dispatched. -/
theorem aggregate_reset_iff_publish_success (cc mc pub : Bool) (s : AggState)
    (h : 0 < s.readingsCount) :
    ((cc && mc && pub) = false →
      publishAggregatedDataToMqtt cc mc pub s = (s, none)) ∧
    ((cc && mc && pub) = true →
      (publishAggregatedDataToMqtt cc mc pub s).1.readingsCount = 0 ∧
      (publishAggregatedDataToMqtt cc mc pub s).1.co2Readings = s.co2Readings ∧
      (publishAggregatedDataToMqtt cc mc pub s).1.humidityReadings = s.humidityReadings ∧
      (publishAggregatedDataToMqtt cc mc pub s).1.readingIndex = s.readingIndex ∧
      (publishAggregatedDataToMqtt cc mc pub s).2 = some (summarize s)) := by
  have hne : s.readingsCount ≠ 0 := Nat.pos_iff_ne_zero.mp h
  constructor <;> intro hc <;>
    cases cc <;> cases mc <;> cases pub <;>
      simp_all [publishAggregatedDataToMqtt]

/-- Witness for C1 at a concrete one-sample window: a failed publish
leaves the state unchanged, a successful one zeroes the count. -/
theorem aggregate_reset_iff_publish_success_witness :
    publishAggregatedDataToMqtt true true false (storeReading 7 8 initialAggState) =
      (storeReading 7 8 initialAggState, none) ∧
    (publishAggregatedDataToMqtt true true true
        (storeReading 7 8 initialAggState)).1.readingsCount = 0 :=
  ⟨(aggregate_reset_iff_publish_success true true false _ (by decide)).1 rfl,
   ((aggregate_reset_iff_publish_success true true true _ (by decide)).2 rfl).1⟩

/-- C7: when the aggregation window is empty (`readingsCount == 0`),
the aggregate-publish step returns without dispatching anything,
without resetting anything, and without modifying any state, for every
connection status and publish outcome. -/
theorem publish_empty_window_skips (cc mc pub : Bool) (s : AggState)
    (h : s.readingsCount = 0) :
    publishAggregatedDataToMqtt cc mc pub s = (s, none) := by
  cases cc <;> cases mc <;> cases pub <;> simp [publishAggregatedDataToMqtt, h]

/-- Witness for C7 at the initial (empty) window with the transport
connected and the publish succeeding. -/
theorem publish_empty_window_skips_witness :
    publishAggregatedDataToMqtt true true true initialAggState = (initialAggState, none) :=
  publish_empty_window_skips true true true initialAggState rfl

/-- C6: the CO2 threshold is checked before the credit threshold, so
whenever both alert conditions hold the evaluator returns
`CriticalHighReading`, never `LowCredits`; and concretely, with
co2 = 2600 (threshold 2500) and 20 available credits (threshold 5) the
result is `CriticalHighReading`. -/
theorem evaluateAlert_priority :
    (∀ (co2 : Int) (credits : Rat),
        CRITICAL_CO2_THRESHOLD < co2 → credits < CRITICAL_CREDITS_THRESHOLD →
          evaluateAlert co2 credits = some AlertKind.CriticalHighReading) ∧
    evaluateAlert 2600 20 = some AlertKind.CriticalHighReading := by
  constructor
  · intro co2 credits h1 _
    simp [evaluateAlert, h1]
  · decide

/-- Witness for C6 at co2 = 2600, credits = 4 (both conditions hold). -/
theorem evaluateAlert_priority_witness :
    evaluateAlert 2600 4 = some AlertKind.CriticalHighReading :=
  evaluateAlert_priority.1 2600 4 (by decide) (by decide)

/-- C9: `autoPurchaseCredits` purchases exactly when auto-purchase is
enabled and `availableCredits < 10`; then `availableCredits` grows by
exactly 100 (one replenishment per call) and nothing else changes;
otherwise the ledger is left exactly unchanged. -/
theorem autoPurchaseCredits_spec (s : BurnerLedger) :
    ((autoPurchaseCredits s).2 = true ↔
      s.autoPurchaseEnabled = true ∧ s.availableCredits < CREDIT_PURCHASE_THRESHOLD) ∧
    ((autoPurchaseCredits s).2 = true →
      (autoPurchaseCredits s).1.availableCredits =
        s.availableCredits + CREDIT_PURCHASE_AMOUNT ∧
      (autoPurchaseCredits s).1.creditsBurned = s.creditsBurned ∧
      (autoPurchaseCredits s).1.co2Reading = s.co2Reading ∧
      (autoPurchaseCredits s).1.autoPurchaseEnabled = s.autoPurchaseEnabled) ∧
    ((autoPurchaseCredits s).2 = false → (autoPurchaseCredits s).1 = s) := by
  unfold autoPurchaseCredits
  split <;> simp_all

/-- Witness for C9: with 5 credits and auto-purchase enabled, one call
adds exactly 100 credits. -/
theorem autoPurchaseCredits_spec_witness :
    (autoPurchaseCredits
        { co2Reading := 0, availableCredits := 5, creditsBurned := 0,
          autoPurchaseEnabled := true }).1.availableCredits = 105 := by
  have h := autoPurchaseCredits_spec
    { co2Reading := 0, availableCredits := 5, creditsBurned := 0, autoPurchaseEnabled := true }
  have h2 := (h.2.1 (h.1.mpr (by decide))).1
  rw [h2]
  with_unfolding_all decide

/-- C8 counterexample: `addCredits` (the generate operation) does not
reject negative amounts — `addCredits(-1)` on the initial ledger
(100 credits) succeeds and changes the ledger, leaving 99 credits,
instead of failing with an invalid-amount error and leaving the state
unchanged. -/
theorem addCredits_negative_accepted :
    (addCredits (-1) inoInitialLedger).availableCredits = 99 ∧
    inoInitialLedger.availableCredits = 100 ∧
    addCredits (-1) inoInitialLedger ≠ inoInitialLedger := by
  with_unfolding_all decide

/-- C8 amended: `addCredits` performs no validation at all — for every
amount, negative ones included, it unconditionally adds the amount to
`availableCredits` (so a negative amount decreases the balance), never
fails, and leaves every other ledger field unchanged. -/
theorem addCredits_unconditional (a : Rat) (s : InoLedger) :
    (addCredits a s).availableCredits = s.availableCredits + a ∧
    (addCredits a s).totalCreditsBurned = s.totalCreditsBurned ∧
    (addCredits a s).currentSessionCreditsBurned = s.currentSessionCreditsBurned ∧
    (addCredits a s).co2Emission = s.co2Emission ∧
    (addCredits a s).isActive = s.isActive :=
  ⟨rfl, rfl, rfl, rfl, rfl⟩

theorem burnCreditsForOffset_eq (s : BurnerLedger) :
    burnCreditsForOffset s =
      { s with availableCredits := s.availableCredits - specActualBurned s
               creditsBurned := s.creditsBurned + specActualBurned s } := by
  simp only [burnCreditsForOffset, specActualBurned, requestedBurn]
  by_cases h : 1000 < s.co2Reading ∧ 0 < s.availableCredits
  · rw [if_pos h]
    have hmin : (if s.availableCredits < ((s.co2Reading : Rat) - 1000) * mkRat 1 1000
          then s.availableCredits
          else ((s.co2Reading : Rat) - 1000) * mkRat 1 1000)
        = min (((s.co2Reading : Rat) - 1000) * mkRat 1 1000) s.availableCredits := by
      rcases lt_or_le s.availableCredits (((s.co2Reading : Rat) - 1000) * mkRat 1 1000) with h1 | h1
      · rw [if_pos h1, min_eq_right h1.le]
      · rw [if_neg (not_lt.mpr h1), min_eq_left h1]
    rw [hmin]
    by_cases h2 :
        mkRat 1 100 < min (((s.co2Reading : Rat) - 1000) * mkRat 1 1000) s.availableCredits
    · rw [if_pos h2, if_pos h2]
    · rw [if_neg h2, if_neg h2, sub_zero, add_zero]
  · rw [if_neg h]
    have h001 : (0 : Rat) < mkRat 1 100 := by with_unfolding_all decide
    have h2 : ¬ mkRat 1 100 <
        min (((s.co2Reading : Rat) - 1000) * mkRat 1 1000) s.availableCredits := by
      rcases not_and_or.mp h with h1 | h1
      · have hco2 : (s.co2Reading : Rat) ≤ 1000 := by exact_mod_cast not_lt.mp h1
        have hr : ((s.co2Reading : Rat) - 1000) * mkRat 1 1000 ≤ 0 :=
          mul_nonpos_iff.mpr (Or.inr ⟨by linarith, by with_unfolding_all decide⟩)
        have hm := le_trans
          (min_le_left (((s.co2Reading : Rat) - 1000) * mkRat 1 1000) s.availableCredits) hr
        intro hc; linarith
      · have hm := le_trans
          (min_le_right (((s.co2Reading : Rat) - 1000) * mkRat 1 1000) s.availableCredits)
          (not_lt.mp h1)
        intro hc; linarith
    rw [if_neg h2, sub_zero, add_zero]

theorem specActualBurned_nonneg (s : BurnerLedger) : 0 ≤ specActualBurned s := by
  unfold specActualBurned
  split_ifs with h
  · have h001 : (0 : Rat) < mkRat 1 100 := by with_unfolding_all decide
    linarith
  · exact le_refl 0

theorem specActualBurned_le (s : BurnerLedger) (h : 0 ≤ s.availableCredits) :
    specActualBurned s ≤ s.availableCredits := by
  unfold specActualBurned
  split_ifs with h2
  · exact min_le_right _ _
  · exact h

/-- C2: the burn operation burns exactly
`min(requested, available)` subject to the 0.01 epsilon no-op policy,
where `requested = (co2Reading - 1000) * 0.001`: `availableCredits`
decreases and `creditsBurned` increases by exactly that amount,
`creditsBurned` never decreases, a nonnegative balance never goes
negative (burns are clamped to the balance), and nothing else changes.
Concretely, in the Wokwi variant, a request of 8.0 credits
(co2Emission 8000 at burn rate 0.001) against a balance of 5.0 burns
exactly 5.0: balance 0.0, lifetime burned increased by 5.0. -/
theorem burn_clamps_to_available (s : BurnerLedger) :
    (burnCreditsForOffset s).availableCredits = s.availableCredits - specActualBurned s ∧
    (burnCreditsForOffset s).creditsBurned = s.creditsBurned + specActualBurned s ∧
    s.creditsBurned ≤ (burnCreditsForOffset s).creditsBurned ∧
    (0 ≤ s.availableCredits → 0 ≤ (burnCreditsForOffset s).availableCredits) ∧
    (burnCreditsForOffset s).co2Reading = s.co2Reading ∧
    (burnCreditsForOffset s).autoPurchaseEnabled = s.autoPurchaseEnabled ∧
    burnCarbonCredits
        { co2Emission := 8000, isActive := true, availableCredits := 5,
          currentSessionCreditsBurned := 0, totalCreditsBurned := 2 } =
      { co2Emission := 8000, isActive := true, availableCredits := 0,
        currentSessionCreditsBurned := 5, totalCreditsBurned := 7 } := by
  have key := burnCreditsForOffset_eq s
  have hnn := specActualBurned_nonneg s
  rw [key]
  refine ⟨rfl, rfl, le_add_of_nonneg_right hnn, fun h0 => ?_, rfl, rfl, ?_⟩
  · have hle := specActualBurned_le s h0
    simp only
    linarith
  · norm_num [burnCarbonCredits, CREDIT_BURN_RATE, Rat.mkRat_eq_div]

/-- Witness for C2 at a concrete burner state: co2Reading = 9000
(requested = 8.0 credits) and 5.0 available credits burn down to 0. -/
theorem burn_clamps_to_available_witness :
    0 ≤ (burnCreditsForOffset
        { co2Reading := 9000, availableCredits := 5, creditsBurned := 1,
          autoPurchaseEnabled := false }).availableCredits :=
  (burn_clamps_to_available
    { co2Reading := 9000, availableCredits := 5, creditsBurned := 1,
      autoPurchaseEnabled := false }).2.2.2.1 (by with_unfolding_all decide)

/-- C10: the alert cooldown timer is consumed even when no alert is
delivered. Whenever a qualifying condition is evaluated after the
cooldown has elapsed, `lastCriticalAlert` is set to the current time
regardless of connectivity and of the publish outcomes; with the
transport disconnected nothing is delivered; and from the updated timer
no alert attempt at all can happen until a full cooldown period has
passed — the dropped alert is not retried. -/
theorem alert_timer_consumed (conn pub fb : Bool) (now : Nat) (co2 : Int) (credits : Rat)
    (s : AlertState) (k : AlertKind)
    (hcool : criticalAlertCooldown ≤ now - s.lastCriticalAlert)
    (heval : evaluateAlert co2 credits = some k) :
    (alertStep conn pub fb now co2 credits s).1 = { lastCriticalAlert := now } ∧
    (conn = false → (alertStep conn pub fb now co2 credits s).2.2 = none) ∧
    (∀ (conn2 pub2 fb2 : Bool) (now2 : Nat) (co2b : Int) (cr2 : Rat),
      now2 - now < criticalAlertCooldown →
      alertStep conn2 pub2 fb2 now2 co2b cr2 { lastCriticalAlert := now } =
        ({ lastCriticalAlert := now }, none, none)) := by
  refine ⟨?_, ?_, ?_⟩
  · simp [alertStep, hcool, heval]
  · intro hconn
    simp [alertStep, hcool, heval, sendCriticalAlert, hconn]
  · intro conn2 pub2 fb2 now2 co2b cr2 h2
    unfold alertStep
    rw [if_neg (not_le.mpr h2)]

/-- Witness for C10: disconnected transport at t = 30000 with
co2 = 2600 — the timer is consumed, nothing is delivered. -/
theorem alert_timer_consumed_witness :
    (alertStep false true true 30000 2600 100 { lastCriticalAlert := 0 }).1 =
      { lastCriticalAlert := 30000 } ∧
    (alertStep false true true 30000 2600 100 { lastCriticalAlert := 0 }).2.2 = none := by
  have h := alert_timer_consumed false true true 30000 2600 100 { lastCriticalAlert := 0 }
    AlertKind.CriticalHighReading (by decide) (by decide)
  exact ⟨h.1, h.2.1 rfl⟩

theorem applyOps_readingsCount (ops : List AggOp) :
    ∀ (k : Nat) (s : AggState), s.readingsCount = min k 15 →
      (applyOps ops s).readingsCount = min (pushesSinceReset ops k) 15 := by
  induction ops with
  | nil =>
    intro k s h
    simpa [applyOps, pushesSinceReset] using h
  | cons op rest ih =>
    intro k s h
    cases op with
    | push co2 hum =>
      simp only [applyOps, applyOp, pushesSinceReset]
      apply ih (k + 1)
      simp only [storeReading]
      rw [h]
      split_ifs <;> omega
    | reset =>
      simp only [applyOps, applyOp, pushesSinceReset]
      apply ih 0
      simp

/-- C4: for every sequence of pushes and resets on the aggregation
window, `readingsCount` — the `samples` count summarize reports —
equals `min(pushes since the last reset, 15)`; consequently it never
exceeds the capacity 15, and each further push increments it up to that
cap. -/
theorem readingsCount_min_pushes (ops : List AggOp) :
    (applyOps ops initialAggState).readingsCount = min (pushesSinceReset ops 0) 15 ∧
    (summarize (applyOps ops initialAggState)).samples = min (pushesSinceReset ops 0) 15 ∧
    (applyOps ops initialAggState).readingsCount ≤ 15 ∧
    (∀ co2 hum : Int,
      (storeReading co2 hum (applyOps ops initialAggState)).readingsCount =
        min ((applyOps ops initialAggState).readingsCount + 1) 15) := by
  have h := applyOps_readingsCount ops 0 initialAggState (by simp [initialAggState])
  have h15 : (applyOps ops initialAggState).readingsCount ≤ 15 := by
    rw [h]; exact min_le_right _ _
  refine ⟨h, h, h15, fun co2 hum => ?_⟩
  simp only [storeReading]
  split_ifs <;> omega

theorem runAlerts_spacing (inputs : List (Nat × Int × Rat)) :
    ∀ s : AlertState,
      List.Pairwise (fun a b => a ≤ b) (inputs.map Prod.fst) →
      (∀ t ∈ inputs.map Prod.fst, s.lastCriticalAlert ≤ t) →
      List.Pairwise (fun e1 e2 => e1.1 + criticalAlertCooldown ≤ e2.1) (runAlerts inputs s) ∧
      (∀ e ∈ runAlerts inputs s, s.lastCriticalAlert + criticalAlertCooldown ≤ e.1) := by
  induction inputs with
  | nil =>
    intro s _ _
    simp [runAlerts]
  | cons p rest ih =>
    obtain ⟨now, co2, credits⟩ := p
    intro s hmono hlb
    simp only [List.map_cons, List.pairwise_cons] at hmono
    obtain ⟨hhead, hmono2⟩ := hmono
    have hsnow : s.lastCriticalAlert ≤ now := hlb now (by simp)
    have hlb2 : ∀ t ∈ rest.map Prod.fst, s.lastCriticalAlert ≤ t := fun t ht =>
      hlb t (by simp [ht])
    by_cases hcd : criticalAlertCooldown ≤ now - s.lastCriticalAlert
    · cases hev : evaluateAlert co2 credits with
      | none =>
        have hrun : runAlerts ((now, co2, credits) :: rest) s = runAlerts rest s := by
          simp [runAlerts, alertStep, hcd, hev]
        rw [hrun]
        exact ih s hmono2 hlb2
      | some k =>
        have hrun : runAlerts ((now, co2, credits) :: rest) s =
            (now, k) :: runAlerts rest { lastCriticalAlert := now } := by
          simp [runAlerts, alertStep, hcd, hev]
        obtain ⟨ihp, ihb⟩ := ih { lastCriticalAlert := now } hmono2 hhead
        rw [hrun]
        constructor
        · rw [List.pairwise_cons]
          exact ⟨fun e he => ihb e he, ihp⟩
        · intro e he
          rcases List.mem_cons.mp he with he1 | he2
          · subst he1
            show s.lastCriticalAlert + criticalAlertCooldown ≤ now
            omega
          · have h3 : now + criticalAlertCooldown ≤ e.1 := ihb e he2
            omega
    · have hrun : runAlerts ((now, co2, credits) :: rest) s = runAlerts rest s := by
        simp [runAlerts, alertStep, hcd]
      rw [hrun]
      exact ih s hmono2 hlb2

/-- C5 amended: the 30 s cooldown timer is shared between the two alert
kinds, so along every monotone observation trace from boot any two
dispatched alerts — of the same kind or of different kinds — are at
least `criticalAlertCooldown` apart; on a single channel, qualifying
conditions at t = 30000 and t + 29999 dispatch only one alert, and a
further one at t + 30001 dispatches a second. -/
theorem alert_cooldown_shared (inputs : List (Nat × Int × Rat))
    (hmono : List.Pairwise (fun a b => a ≤ b) (inputs.map Prod.fst)) :
    List.Pairwise (fun e1 e2 => e1.1 + criticalAlertCooldown ≤ e2.1)
      (runAlerts inputs { lastCriticalAlert := 0 }) ∧
    runAlerts [(30000, 2600, 100), (59999, 2600, 100)] { lastCriticalAlert := 0 } =
      [(30000, AlertKind.CriticalHighReading)] ∧
    runAlerts [(30000, 2600, 100), (59999, 2600, 100), (60001, 2600, 100)]
        { lastCriticalAlert := 0 } =
      [(30000, AlertKind.CriticalHighReading), (60001, AlertKind.CriticalHighReading)] := by
  refine ⟨(runAlerts_spacing inputs { lastCriticalAlert := 0 } hmono
    (fun t _ => Nat.zero_le t)).1, ?_, ?_⟩ <;> decide

/-- Witness for C5 (amended) on a concrete three-tick trace. -/
theorem alert_cooldown_shared_witness :
    List.Pairwise (fun e1 e2 => e1.1 + criticalAlertCooldown ≤ e2.1)
      (runAlerts [(30000, 2600, 100), (59999, 2600, 100), (60001, 2600, 100)]
        { lastCriticalAlert := 0 }) :=
  (alert_cooldown_shared [(30000, 2600, 100), (59999, 2600, 100), (60001, 2600, 100)]
    (by decide)).1

/-- C5 counterexample: the channels are not independent. A HIGH_CO2 fire
at t = 30000 consumes the shared cooldown timer, so a qualifying
low-credits condition (1 credit, threshold 5) at t = 31000 dispatches
nothing — although the same condition from an idle timer does dispatch
`LowCredits`. -/
theorem alert_channels_not_independent :
    runAlerts [(30000, 2600, 100), (31000, 0, 1)] { lastCriticalAlert := 0 } =
      [(30000, AlertKind.CriticalHighReading)] ∧
    runAlerts [(31000, 0, 1)] { lastCriticalAlert := 0 } =
      [(31000, AlertKind.LowCredits)] ∧
    (1 : Rat) < CRITICAL_CREDITS_THRESHOLD := by decide

/-- C3 (failing input): a successful publish resets `readingsCount` but
leaves `readingIndex` where it was, while the aggregation loop always
reads buffer positions `0 .. readingsCount-1`. After 10 pushes
(CO2 1..10) and a successful publish, the next 3 pushes (CO2 11,12,13)
land at positions 10-12, yet summarize reads positions 0-2 — the stale
values [1,2,3] of the previous window (min 1, max 3), not the last 3
pushed samples [11,12,13]. Without an intervening reset the scenario given in
the claim does hold: 20 pushes with CO2 1..20 from boot summarize exactly
the last 15 values (min 6, max 20, 15 samples). -/
theorem summarize_reads_stale_entries_after_reset :
    (let s3 := applyOps [AggOp.push 11 11, AggOp.push 12 12, AggOp.push 13 13]
        (publishAggregatedDataToMqtt true true true
          (applyOps
            [AggOp.push 1 1, AggOp.push 2 2, AggOp.push 3 3, AggOp.push 4 4, AggOp.push 5 5,
             AggOp.push 6 6, AggOp.push 7 7, AggOp.push 8 8, AggOp.push 9 9, AggOp.push 10 10]
            initialAggState)).1
     let s20 := applyOps
        [AggOp.push 1 1, AggOp.push 2 2, AggOp.push 3 3, AggOp.push 4 4, AggOp.push 5 5,
         AggOp.push 6 6, AggOp.push 7 7, AggOp.push 8 8, AggOp.push 9 9, AggOp.push 10 10,
         AggOp.push 11 11, AggOp.push 12 12, AggOp.push 13 13, AggOp.push 14 14,
         AggOp.push 15 15, AggOp.push 16 16, AggOp.push 17 17, AggOp.push 18 18,
         AggOp.push 19 19, AggOp.push 20 20]
        initialAggState
     s3.readingsCount = 3 ∧
     s3.readingIndex = 13 ∧
     aggregateEntriesCO2 s3 = [1, 2, 3] ∧
     (summarize s3).min_c = 1 ∧
     (summarize s3).max_c = 3 ∧
     ([1, 2, 3] : List Int) ≠ [11, 12, 13] ∧
     (summarize s20).min_c = 6 ∧
     (summarize s20).max_c = 20 ∧
     (summarize s20).samples = 15) := by decide
